import Mathlib

/-!
Verification of the property-listing read-through cache
(`properties/utils.py`, `properties/views.py`).

The cache backend is modelled as an association list from string keys to
entries carrying a value and an absolute expiry instant; operations take
the current time explicitly, so TTL behaviour is visible in the model.
The backing store (RecordStore) is modelled as the result its single
`fetchAll` would produce during the call: `Except String (List Property)`.
Logging is observability-only and is not modelled.
-/

namespace PropertyListings

/-- Modelled from the spec: the repository imports `Property` from
`properties/models.py`, which is not among the given sources. Per the
data model, `price` is a decimal/numeric value, serialized as a string.
A decimal number is a signed mantissa together with the number of digits
after the decimal point. -/
structure Decimal where
  mant : Int
  scale : Nat
deriving DecidableEq, Repr

def padLeftZeros (s : List Char) (n : Nat) : List Char :=
  List.replicate (n - s.length) '0' ++ s

/-- Rendering of a decimal value as Python `str` renders it:
the digit string with a decimal point inserted `scale` digits from
the right (no point when `scale = 0`). -/
def Decimal.toString (d : Decimal) : String :=
  let sign := if d.mant < 0 then "-" else ""
  if d.scale = 0 then sign ++ String.mk (Nat.toDigits 10 d.mant.natAbs)
  else
    let ds := padLeftZeros (Nat.toDigits 10 d.mant.natAbs) (d.scale + 1)
    sign ++ String.mk (ds.take (ds.length - d.scale)) ++ "." ++
      String.mk (ds.drop (ds.length - d.scale))

/-- Modelled from the spec: `created_at` is a timestamp serialized in
ISO-8601. Microseconds are omitted (Python `isoformat` omits them when
zero). -/
structure DateTime where
  year : Nat
  month : Nat
  day : Nat
  hour : Nat
  minute : Nat
  second : Nat
deriving DecidableEq, Repr

def padNum (n : Nat) (width : Nat) : String :=
  String.mk (padLeftZeros (Nat.toDigits 10 n) width)

/-- ISO-8601 rendering, as Python `datetime.isoformat()`. -/
def DateTime.isoformat (t : DateTime) : String :=
  padNum t.year 4 ++ "-" ++ padNum t.month 2 ++ "-" ++ padNum t.day 2 ++ "T" ++
    padNum t.hour 2 ++ ":" ++ padNum t.minute 2 ++ ":" ++ padNum t.second 2

/-- Modelled from the spec: a PropertyRecord has a stable identifier,
title, description, decimal price, location and creation timestamp. -/
structure Property where
  pk : Nat
  title : String
  description : String
  price : Decimal
  location : String
  created_at : DateTime
deriving DecidableEq, Repr

/-- One cache entry: the stored collection and the absolute instant at
which it expires (write time + TTL). -/
structure CacheEntry where
  value : List Property
  expiresAt : Nat
deriving DecidableEq, Repr

/-- The cache backend state: key-value pairs, later writes shadowing
earlier ones. -/
abbrev Cache := List (String × CacheEntry)

/-- `cache.get key`: the stored value when the key is present and not yet
expired, otherwise absent. An entry is live strictly before its expiry
instant. -/
def cacheGet : Cache → Nat → String → Option (List Property)
  | [], _, _ => none
  | (k, e) :: rest, now, key =>
    if k = key then (if now < e.expiresAt then some e.value else none)
    else cacheGet rest now key

/-- `cache.set key value ttl`: write the value under the key, expiring
`ttl` seconds from now. -/
def cacheSet (c : Cache) (now : Nat) (key : String) (v : List Property)
    (ttl : Nat) : Cache :=
  (key, ⟨v, now + ttl⟩) :: c

/-- Outcome of the RecordStore fetch (`list(Property.objects.all())`):
either the complete record list or a StoreUnavailable failure carrying a
message. -/
abbrev StoreResult := Except String (List Property)

/-- Embedding of `get_all_properties` (utils.py). Looks up the key
`all_properties`; on a hit returns the cached list unchanged; on a miss
consults the store: a successful fetch is cached for 3600 seconds and
returned, a store failure propagates before any cache write. The
returned cache is the backend state after the call. -/
def get_all_properties (now : Nat) (c : Cache) (fetch : StoreResult) :
    StoreResult × Cache :=
  match cacheGet c now "all_properties" with
  | some cached_properties => (.ok cached_properties, c)
  | none =>
    match fetch with
    | .ok queryset => (.ok queryset, cacheSet c now "all_properties" queryset 3600)
    | .error e => (.error e, c)

/-- The stats mapping returned by `redis_conn.info` restricted to the two
counters the code reads; each may be missing from the mapping. -/
structure Stats where
  keyspace_hits : Option Nat
  keyspace_misses : Option Nat
deriving DecidableEq, Repr

/-- The dictionary `get_redis_cache_metrics` returns: the two counters,
the derived ratio, and the error marker present only on the exception
path. -/
structure Metrics where
  keyspace_hits : Nat
  keyspace_misses : Nat
  hit_ratio : Rat
  error : Option String
deriving DecidableEq, Repr

/-- Nearest integer, ties to even, as Python `round`. -/
def roundHalfEven (q : Rat) : Int :=
  let f := ⌊q⌋
  let r := q - f
  if r < 1 / 2 then f
  else if 1 / 2 < r then f + 1
  else if f % 2 = 0 then f else f + 1

/-- Rounding to two decimal places, as `round(x, 2)`. -/
def round2 (q : Rat) : Rat :=
  (roundHalfEven (q * 100) : Rat) / 100

/-- Embedding of `get_redis_cache_metrics` (utils.py). The argument is
the outcome of the guarded prefix (`get_redis_connection` plus `info`):
either the stats mapping, or the message of the exception raised. The
function always returns a `Metrics` value, never a failure. -/
def get_redis_cache_metrics (conn : Except String Stats) : Metrics :=
  match conn with
  | .ok info =>
    let keyspace_hits := info.keyspace_hits.getD 0
    let keyspace_misses := info.keyspace_misses.getD 0
    let total_requests := keyspace_hits + keyspace_misses
    let hit_ratio : Rat :=
      if total_requests > 0 then
        (keyspace_hits : Rat) / (total_requests : Rat) * 100
      else 0
    { keyspace_hits := keyspace_hits
      keyspace_misses := keyspace_misses
      hit_ratio := round2 hit_ratio
      error := none }
  | .error e =>
    { keyspace_hits := 0
      keyspace_misses := 0
      hit_ratio := 0
      error := some e }

/-- The serialized record shape built by `property_list` (views.py). -/
structure SerializedProperty where
  id : Nat
  title : String
  description : String
  price : String
  location : String
  created_at : String
deriving DecidableEq, Repr

/-- Per-record shaping from the comprehension in `property_list`. -/
def serializeProperty (p : Property) : SerializedProperty :=
  { id := p.pk
    title := p.title
    description := p.description
    price := p.price.toString
    location := p.location
    created_at := p.created_at.isoformat }

/-- Embedding of the view body of `property_list` (views.py) below the
response-cache decorator: call `get_all_properties`, shape each record,
or let a store failure surface. -/
def property_list (now : Nat) (c : Cache) (fetch : StoreResult) :
    Except String (List SerializedProperty) × Cache :=
  match get_all_properties now c fetch with
  | (.ok props, c2) => (.ok (props.map serializeProperty), c2)
  | (.error e, c2) => (.error e, c2)

/-- Running a sequence of `get_all_properties` calls, each at its own
time and with its own store outcome, threading the cache through. -/
def runCalls (c : Cache) : List (Nat × StoreResult) →
    List StoreResult × Cache
  | [] => ([], c)
  | (t, fetch) :: rest =>
    let step := get_all_properties t c fetch
    let tail := runCalls step.2 rest
    (step.1 :: tail.1, tail.2)

/-- A sample record used by the concrete witnesses. -/
def sampleProperty : Property :=
  { pk := 1
    title := "Cozy Flat"
    description := "Two rooms"
    price := ⟨25000050, 2⟩
    location := "Lagos"
    created_at := ⟨2024, 3, 5, 12, 30, 45⟩ }

theorem cacheGet_cacheSet_same (c : Cache) (t0 t ttl : Nat) (key : String)
    (v : List Property) :
    cacheGet (cacheSet c t0 key v ttl) t key =
      if t < t0 + ttl then some v else none := by
  simp [cacheGet, cacheSet]

/-- C1: when the lookup of `all_properties` misses, `get_all_properties`
returns exactly the list fetched from the store and writes exactly that
list under `all_properties` with expiry 3600 seconds from now. -/
theorem get_all_properties_miss_populates (now : Nat) (c : Cache)
    (qs : List Property) (h : cacheGet c now "all_properties" = none) :
    get_all_properties now c (.ok qs) =
      (.ok qs, ("all_properties", ⟨qs, now + 3600⟩) :: c) := by
  simp [get_all_properties, h, cacheSet]

theorem get_all_properties_miss_populates_witness :
    get_all_properties 0 [] (.ok [sampleProperty]) =
      (.ok [sampleProperty], [("all_properties", ⟨[sampleProperty], 0 + 3600⟩)]) :=
  get_all_properties_miss_populates 0 [] [sampleProperty] rfl

/-- C2: `get_redis_cache_metrics` totally returns a `Metrics` value on
every backend outcome (it never propagates a failure), and when the
stats query raises it returns zeroed counters and ratio together with
the error marker carrying the failure message. -/
theorem get_redis_cache_metrics_never_fails :
    (∀ conn : Except String Stats, ∃ m : Metrics,
      get_redis_cache_metrics conn = m) ∧
    ∀ e : String, get_redis_cache_metrics (.error e) =
      { keyspace_hits := 0, keyspace_misses := 0, hit_ratio := 0,
        error := some e } :=
  ⟨fun _ => ⟨_, rfl⟩, fun _ => rfl⟩

/-- C3: with both counters present, the reported ratio is
hits / (hits + misses) * 100 rounded to two decimals, 0 when both
counters are 0; in particular 80 and 20 give 80, 0 and 0 give 0, and
1 and 2 give 33.33. -/
theorem hit_ratio_formula :
    (∀ h m : Nat, (get_redis_cache_metrics (.ok ⟨some h, some m⟩)).hit_ratio =
      if 0 < h + m then round2 ((h : Rat) / ((h : Rat) + (m : Rat)) * 100)
      else 0) ∧
    (get_redis_cache_metrics (.ok ⟨some 80, some 20⟩)).hit_ratio = 80 ∧
    (get_redis_cache_metrics (.ok ⟨some 0, some 0⟩)).hit_ratio = 0 ∧
    (get_redis_cache_metrics (.ok ⟨some 1, some 2⟩)).hit_ratio = 3333 / 100 := by
  refine ⟨fun h m => ?_,
    by simp only [get_redis_cache_metrics]; norm_num [round2, roundHalfEven],
    by simp only [get_redis_cache_metrics]; norm_num [round2, roundHalfEven],
    by simp only [get_redis_cache_metrics]; norm_num [round2, roundHalfEven]⟩
  by_cases hc : 0 < h + m
  · simp only [get_redis_cache_metrics, Option.getD, hc, if_pos, gt_iff_lt]
    push_cast
    rfl
  · simp only [get_redis_cache_metrics, Option.getD, hc, gt_iff_lt, if_neg,
      if_false]
    norm_num [round2, roundHalfEven]

/-- C4: when the lookup misses and the store fetch fails, the failure
propagates and the cache is returned unchanged: nothing was written. -/
theorem get_all_properties_store_failure (now : Nat) (c : Cache)
    (e : String) (h : cacheGet c now "all_properties" = none) :
    get_all_properties now c (.error e) = (.error e, c) := by
  simp [get_all_properties, h]

theorem get_all_properties_store_failure_witness :
    get_all_properties 0 [] (.error "store down") = (.error "store down", []) :=
  get_all_properties_store_failure 0 [] "store down" rfl

/-- C5: with an empty store, a miss returns the empty list and caches it;
any later call while that entry is live returns the empty list from the
cache, ignores the store entirely, and leaves the cache unchanged. -/
theorem get_all_properties_empty_store (now : Nat) (c : Cache)
    (h : cacheGet c now "all_properties" = none) :
    get_all_properties now c (.ok []) =
      (.ok [], cacheSet c now "all_properties" [] 3600) ∧
    ∀ t fetch, t < now + 3600 →
      get_all_properties t (cacheSet c now "all_properties" [] 3600) fetch =
        (.ok [], cacheSet c now "all_properties" [] 3600) := by
  refine ⟨by simp [get_all_properties, h], fun t fetch ht => ?_⟩
  have hg : cacheGet (cacheSet c now "all_properties" [] 3600) t
      "all_properties" = some [] := by
    rw [cacheGet_cacheSet_same]
    simp [ht]
  simp [get_all_properties, hg]

theorem get_all_properties_empty_store_witness :
    get_all_properties 0 [] (.ok []) =
      (.ok [], cacheSet [] 0 "all_properties" [] 3600) ∧
    get_all_properties 3599 (cacheSet [] 0 "all_properties" [] 3600)
        (.error "store down") =
      (.ok [], cacheSet [] 0 "all_properties" [] 3600) :=
  ⟨(get_all_properties_empty_store 0 [] rfl).1,
    (get_all_properties_empty_store 0 [] rfl).2 3599 (.error "store down")
      (by norm_num)⟩

/-- C6: when the lookup of `all_properties` hits, the stored list is
returned as-is, the result does not depend on the store at all, and the
cache is returned unchanged. -/
theorem get_all_properties_hit (now : Nat) (c : Cache) (v : List Property)
    (h : cacheGet c now "all_properties" = some v) :
    ∀ fetch, get_all_properties now c fetch = (.ok v, c) := by
  intro fetch
  simp [get_all_properties, h]

theorem get_all_properties_hit_witness :
    get_all_properties 0 [("all_properties", ⟨[sampleProperty], 100⟩)]
        (.error "store down") =
      (.ok [sampleProperty], [("all_properties", ⟨[sampleProperty], 100⟩)]) :=
  get_all_properties_hit 0 [("all_properties", ⟨[sampleProperty], 100⟩)]
    [sampleProperty] rfl (.error "store down")

theorem runCalls_all_hits (c1 : Cache) (qs : List Property)
    (calls : List (Nat × StoreResult))
    (hall : ∀ p ∈ calls, cacheGet c1 p.1 "all_properties" = some qs) :
    runCalls c1 calls = (calls.map fun _ => Except.ok qs, c1) := by
  induction calls with
  | nil => simp [runCalls]
  | cons p rest ih =>
    have h1 : cacheGet c1 p.1 "all_properties" = some qs := hall p (by simp)
    have hstep : get_all_properties p.1 c1 p.2 = (.ok qs, c1) := by
      simp [get_all_properties, h1]
    simp only [runCalls, hstep, List.map_cons]
    rw [ih fun q hq => hall q (List.mem_cons_of_mem _ hq)]

/-- C7: after a miss at time t0 populates the cache with the fetched
list, every call in any sequence of calls at times inside the TTL window
returns that same list, and the cache after the whole sequence is still
the one the miss wrote. -/
theorem get_all_properties_idempotent_window (t0 : Nat) (c : Cache)
    (qs : List Property) (h : cacheGet c t0 "all_properties" = none)
    (calls : List (Nat × StoreResult))
    (hw : ∀ p ∈ calls, p.1 < t0 + 3600) :
    (get_all_properties t0 c (.ok qs)).1 = .ok qs ∧
    runCalls (get_all_properties t0 c (.ok qs)).2 calls =
      (calls.map fun _ => Except.ok qs,
        (get_all_properties t0 c (.ok qs)).2) := by
  have hc2 : (get_all_properties t0 c (.ok qs)).2 =
      cacheSet c t0 "all_properties" qs 3600 := by
    simp [get_all_properties, h]
  refine ⟨by simp [get_all_properties, h], ?_⟩
  rw [hc2]
  exact runCalls_all_hits _ qs calls fun p hp => by
    rw [cacheGet_cacheSet_same]
    simp [hw p hp]

theorem get_all_properties_idempotent_window_witness :
    (get_all_properties 0 [] (.ok [sampleProperty])).1 = .ok [sampleProperty] ∧
    runCalls (get_all_properties 0 [] (.ok [sampleProperty])).2
        [(5, .error "store down"), (3599, .ok [])] =
      ([(5, (.error "store down" : StoreResult)),
          (3599, .ok [])].map fun _ => Except.ok [sampleProperty],
        (get_all_properties 0 [] (.ok [sampleProperty])).2) :=
  get_all_properties_idempotent_window 0 [] [sampleProperty] rfl
    [(5, .error "store down"), (3599, .ok [])] (by decide)

/-- C8: every record the view returns is the serialized shape of a
fetched record: identifier, title, description and location carried
over, price rendered as its decimal string, created_at rendered as its
ISO-8601 string. -/
theorem property_list_shape (now : Nat) (c : Cache) (fetch : StoreResult)
    (props : List Property) (c2 : Cache)
    (h : get_all_properties now c fetch = (.ok props, c2)) :
    property_list now c fetch = (.ok (props.map serializeProperty), c2) ∧
    ∀ s ∈ props.map serializeProperty, ∃ p ∈ props,
      s.id = p.pk ∧ s.title = p.title ∧ s.description = p.description ∧
      s.price = p.price.toString ∧ s.location = p.location ∧
      s.created_at = p.created_at.isoformat := by
  refine ⟨by simp [property_list, h], fun s hs => ?_⟩
  obtain ⟨p, hp, hfp⟩ := List.mem_map.mp hs
  exact ⟨p, hp, by rw [← hfp]; exact ⟨rfl, rfl, rfl, rfl, rfl, rfl⟩⟩

theorem property_list_shape_witness :
    property_list 0 [] (.ok [sampleProperty]) =
      (.ok ([sampleProperty].map serializeProperty),
        cacheSet [] 0 "all_properties" [sampleProperty] 3600) ∧
    ∀ s ∈ [sampleProperty].map serializeProperty, ∃ p ∈ [sampleProperty],
      s.id = p.pk ∧ s.title = p.title ∧ s.description = p.description ∧
      s.price = p.price.toString ∧ s.location = p.location ∧
      s.created_at = p.created_at.isoformat :=
  property_list_shape 0 [] (.ok [sampleProperty]) [sampleProperty]
    (cacheSet [] 0 "all_properties" [sampleProperty] 3600) rfl

/-- C9: the entry written by a miss at time t0 is readable exactly at
times strictly before t0 + 3600 and at no later time, and a hit read
inside the window leaves the cache byte-for-byte unchanged, so hits
never extend the expiry (no sliding expiration). -/
theorem no_sliding_expiration (t0 : Nat) (c : Cache) (qs : List Property)
    (h : cacheGet c t0 "all_properties" = none) :
    (∀ t, cacheGet (get_all_properties t0 c (.ok qs)).2 t "all_properties" =
      if t < t0 + 3600 then some qs else none) ∧
    ∀ t fetch, t < t0 + 3600 →
      (get_all_properties t (get_all_properties t0 c (.ok qs)).2 fetch).2 =
        (get_all_properties t0 c (.ok qs)).2 := by
  have hc2 : (get_all_properties t0 c (.ok qs)).2 =
      cacheSet c t0 "all_properties" qs 3600 := by
    simp [get_all_properties, h]
  rw [hc2]
  refine ⟨fun t => cacheGet_cacheSet_same c t0 t 3600 _ qs, fun t fetch ht => ?_⟩
  have hg : cacheGet (cacheSet c t0 "all_properties" qs 3600) t
      "all_properties" = some qs := by
    rw [cacheGet_cacheSet_same]
    simp [ht]
  simp [get_all_properties, hg]

theorem no_sliding_expiration_witness :
    (∀ t, cacheGet (get_all_properties 0 [] (.ok [sampleProperty])).2 t
      "all_properties" =
      if t < 0 + 3600 then some [sampleProperty] else none) ∧
    ∀ t fetch, t < 0 + 3600 →
      (get_all_properties t
          (get_all_properties 0 [] (.ok [sampleProperty])).2 fetch).2 =
        (get_all_properties 0 [] (.ok [sampleProperty])).2 :=
  no_sliding_expiration 0 [] [sampleProperty] rfl

/-- C10 as stated is false: when the stats query succeeds with
keyspace_hits missing but keyspace_misses present (here 3), the result
keeps the present counter, so it is not the all-zero snapshot the claim
announces for a mapping lacking either field. -/
theorem metrics_missing_hits_counterexample :
    Stats.keyspace_hits ⟨none, some 3⟩ = none ∧
    get_redis_cache_metrics (.ok ⟨none, some 3⟩) ≠
      { keyspace_hits := 0, keyspace_misses := 0, hit_ratio := 0,
        error := none } := by
  refine ⟨rfl, fun hEq => ?_⟩
  have h3 : (get_redis_cache_metrics
      (.ok ⟨none, some 3⟩)).keyspace_misses = 3 := rfl
  rw [hEq] at h3
  exact absurd h3 (by decide)

/-- C10 amended: on a successful stats query each missing counter is
read as 0 and no error marker is present; in particular when both
counters are missing the result is the all-zero snapshot without an
error field. -/
theorem metrics_missing_fields_default_zero :
    (∀ s : Stats,
      (get_redis_cache_metrics (.ok s)).keyspace_hits =
        s.keyspace_hits.getD 0 ∧
      (get_redis_cache_metrics (.ok s)).keyspace_misses =
        s.keyspace_misses.getD 0 ∧
      (get_redis_cache_metrics (.ok s)).error = none) ∧
    get_redis_cache_metrics (.ok ⟨none, none⟩) =
      { keyspace_hits := 0, keyspace_misses := 0, hit_ratio := 0,
        error := none } :=
  ⟨fun _ => ⟨rfl, rfl, rfl⟩, by
    simp only [get_redis_cache_metrics, Metrics.mk.injEq]
    norm_num [round2, roundHalfEven]⟩

end PropertyListings
